import Mathlib

/-!
# Query Review Workflow — shallow embedding

A shallow embedding of the query review workspace component
(`apps/ai/clients/admin-console/src/components/query/workspace.tsx`).

The component holds four pieces of local draft state (`currentSqlQuery`,
`verifiedStatus`, `savingQuery`, `loadingQueryResults`), two asynchronous
handlers (`handleRunQuery`, `handleSaveQuery`) that each call one external
collaborator (`onExecuteQuery` / `onPatchQuery`) inside a
try-catch-finally, two synchronous draft setters (`handleSqlChange`,
`handleVerifyChange`), and a three-way results view.

Each asynchronous handler has exactly one suspension point, the `await` of
the collaborator call.  We model an operation as two halves: a start half
(everything up to the await — in the source this sets the busy flag and
issues the collaborator call) and a finish half (the try-catch-finally
continuation, parameterised by whether the awaited promise resolved or
rejected).  Side effects — collaborator invocations and toast
notifications — are collected in an explicit effect list.

Closures: in the source, the retry action attached to a failure toast is
the handler function itself (`onClick={handleRunQuery}` /
`onClick={handleSaveQuery}`), a closure created at render time that
captured the then-current `currentSqlQuery` (and, for save,
`verifiedStatus`).  We represent a retry closure by its captured
environment (`RetryAction`), and handler invocation is parameterised by
the captured values (`handleRunQueryWith`), with the ordinary
button-click entry point reading them from the current state
(`handleRunQuery`).
-/

namespace Dataherald

/-- Verification status of a query (`QueryStatus` from `models/api`, not part of
the reviewed sources).  The spec says the core treats it as an opaque enumerated
value it can read, set and pass through without interpreting variants beyond
equality; we represent it by a string code. -/
abbrev QueryStatus := String

/-- A JavaScript-level value for the `sql_query_result` field.  Besides the
well-formed table shape `\x7b columns, rows \x7d` and `null`, we include
`undefined` to reason about the strict `=== null` check versus truthiness. -/
inductive SqlQueryResult
  | null
  | undefined
  | table (columns : List String) (rows : List (List String))
deriving DecidableEq, Repr

/-- The fragment the execution collaborator resolves with.  The component never
reads it (the awaited value is discarded); it is carried only so theorems can
quantify over responses, including ones with a populated `sql_error_message`. -/
structure ExecResponse where
  sql_query_result : SqlQueryResult
  sql_error_message : Option String
  nl_response : String
deriving DecidableEq, Repr

/-- Outcome of the awaited `onExecuteQuery` promise. -/
inductive ExecOutcome
  | resolved (response : ExecResponse)
  | rejected
deriving DecidableEq, Repr

/-- Outcome of the awaited `onPatchQuery` promise. -/
inductive SaveOutcome
  | resolved
  | rejected
deriving DecidableEq, Repr

/-- Toast variants used by the component. -/
inductive ToastVariant
  | success
  | destructive
deriving DecidableEq, Repr

/-- A retry closure attached to a failure toast, represented by the render-time
values it captured. -/
inductive RetryAction
  | runRetry (capturedSqlQuery : String)
  | saveRetry (capturedSqlQuery : String) (capturedStatus : QueryStatus)
deriving DecidableEq, Repr

/-- A toast notification as passed to `toast(...)`. -/
structure Toast where
  variant : ToastVariant
  title : String
  description : Option String
  action : Option RetryAction
deriving DecidableEq, Repr

/-- An observable side effect of the component: an invocation of one of the two
external collaborators, or a toast notification. -/
inductive Effect
  | execCall (sql_query : String)
  | patchCall (sql_query : String) (query_status : QueryStatus)
  | toastShown (t : Toast)
deriving DecidableEq, Repr

/-- The component's local state: the two draft fields and the two busy flags
(`useState` hooks of the component). -/
structure Workspace where
  currentSqlQuery : String
  verifiedStatus : QueryStatus
  savingQuery : Bool
  loadingQueryResults : Bool
deriving DecidableEq, Repr

/-- The success toast of `handleRunQuery` (variant success, title
"Query executed!", no description, no action). -/
def runSuccessToast : Toast :=
  { variant := ToastVariant.success,
    title := "Query executed!",
    description := none,
    action := none }

/-- The failure toast of `handleRunQuery`: destructive, with a retry action that
is the `handleRunQuery` closure holding the captured SQL text. -/
def runFailureToast (capturedSqlQuery : String) : Toast :=
  { variant := ToastVariant.destructive,
    title := "Ups! Something went wrong.",
    description := some "There was a problem with running your query",
    action := some (RetryAction.runRetry capturedSqlQuery) }

/-- The success toast of `handleSaveQuery`. -/
def saveSuccessToast : Toast :=
  { variant := ToastVariant.success,
    title := "Saved!",
    description := some "Your changes over the query were successfully applied",
    action := none }

/-- The failure toast of `handleSaveQuery`: destructive, with a retry action that
is the `handleSaveQuery` closure holding the captured SQL text and status. -/
def saveFailureToast (capturedSqlQuery : String) (capturedStatus : QueryStatus) :
    Toast :=
  { variant := ToastVariant.destructive,
    title := "Ups! Something went wrong.",
    description := some "There was a problem with saving your query",
    action := some (RetryAction.saveRetry capturedSqlQuery capturedStatus) }

/-- First half of `handleRunQuery`, up to the suspension point: unconditionally
sets `loadingQueryResults` to true (`setLoadingQueryResults(true)`) and invokes
`onExecuteQuery(currentSqlQuery)` with the render-captured SQL text.  There is
no guard on `loadingQueryResults` in the source. -/
def runStart (capturedSqlQuery : String) (s : Workspace) :
    Workspace × List Effect :=
  ({ s with loadingQueryResults := true }, [Effect.execCall capturedSqlQuery])

/-- Second half of `handleRunQuery`, the try-catch-finally continuation: on
resolution, a success toast; on rejection, a destructive toast whose action is
the same closure (captured SQL); finally, `setLoadingQueryResults(false)`
unconditionally.  The resolved response is discarded by the component. -/
def runFinish (capturedSqlQuery : String) (outcome : ExecOutcome)
    (s : Workspace) : Workspace × List Effect :=
  match outcome with
  | ExecOutcome.resolved _ =>
      ({ s with loadingQueryResults := false },
        [Effect.toastShown runSuccessToast])
  | ExecOutcome.rejected =>
      ({ s with loadingQueryResults := false },
        [Effect.toastShown (runFailureToast capturedSqlQuery)])

/-- A full `handleRunQuery` invocation with an explicitly given captured SQL
text (the closure environment), run without interleaving. -/
def handleRunQueryWith (capturedSqlQuery : String) (outcome : ExecOutcome)
    (s : Workspace) : Workspace × List Effect :=
  let p := runStart capturedSqlQuery s
  let q := runFinish capturedSqlQuery outcome p.1
  (q.1, p.2 ++ q.2)

/-- `handleRunQuery` invoked from the current render: the closure captured the
state's current `currentSqlQuery`. -/
def handleRunQuery (outcome : ExecOutcome) (s : Workspace) :
    Workspace × List Effect :=
  handleRunQueryWith s.currentSqlQuery outcome s

/-- First half of `handleSaveQuery`, up to the suspension point: sets
`savingQuery` to true and invokes `onPatchQuery` with the object
`\x7b query_status: verifiedStatus, sql_query: currentSqlQuery \x7d` built from
the render-captured values.  No guard on `savingQuery` in the source. -/
def saveStart (capturedSqlQuery : String) (capturedStatus : QueryStatus)
    (s : Workspace) : Workspace × List Effect :=
  ({ s with savingQuery := true },
    [Effect.patchCall capturedSqlQuery capturedStatus])

/-- Second half of `handleSaveQuery`: success toast on resolution, destructive
toast with the save retry closure on rejection; finally,
`setSavingQuery(false)` unconditionally.  No draft field is written on either
path. -/
def saveFinish (capturedSqlQuery : String) (capturedStatus : QueryStatus)
    (outcome : SaveOutcome) (s : Workspace) : Workspace × List Effect :=
  match outcome with
  | SaveOutcome.resolved =>
      ({ s with savingQuery := false }, [Effect.toastShown saveSuccessToast])
  | SaveOutcome.rejected =>
      ({ s with savingQuery := false },
        [Effect.toastShown (saveFailureToast capturedSqlQuery capturedStatus)])

/-- A full `handleSaveQuery` invocation with an explicitly given captured
environment, run without interleaving. -/
def handleSaveQueryWith (capturedSqlQuery : String)
    (capturedStatus : QueryStatus) (outcome : SaveOutcome) (s : Workspace) :
    Workspace × List Effect :=
  let p := saveStart capturedSqlQuery capturedStatus s
  let q := saveFinish capturedSqlQuery capturedStatus outcome p.1
  (q.1, p.2 ++ q.2)

/-- `handleSaveQuery` invoked from the current render: the closure captured the
state's current `currentSqlQuery` and `verifiedStatus`. -/
def handleSaveQuery (outcome : SaveOutcome) (s : Workspace) :
    Workspace × List Effect :=
  handleSaveQueryWith s.currentSqlQuery s.verifiedStatus outcome s

/-- `handleSqlChange`: the SQL editor change handler; its body is exactly
`setCurrentSqlQuery(value)`. -/
def handleSqlChange (value : String) (s : Workspace) :
    Workspace × List Effect :=
  ({ s with currentSqlQuery := value }, [])

/-- `handleVerifyChange`: the status selector change handler; its body is
exactly `setVerifiedStatus(...)`. -/
def handleVerifyChange (v : QueryStatus) (s : Workspace) :
    Workspace × List Effect :=
  ({ s with verifiedStatus := v }, [])

/-- Triggering the retry action of a failure toast: runs the stored closure —
with its captured environment — against the current state.  The outcome of the
retried collaborator call is supplied for whichever operation the action
retries. -/
def triggerRetry (a : RetryAction) (runOutcome : ExecOutcome)
    (saveOutcome : SaveOutcome) (s : Workspace) : Workspace × List Effect :=
  match a with
  | RetryAction.runRetry captured =>
      handleRunQueryWith captured runOutcome s
  | RetryAction.saveRetry capturedSql capturedStatus =>
      handleSaveQueryWith capturedSql capturedStatus saveOutcome s

/-- The SQL-text payloads of the `onExecuteQuery` invocations in an effect
list. -/
def execPayloads : List Effect → List String
  | [] => []
  | Effect.execCall q :: es => q :: execPayloads es
  | Effect.patchCall _ _ :: es => execPayloads es
  | Effect.toastShown _ :: es => execPayloads es

/-- The payloads of the `onPatchQuery` invocations in an effect list. -/
def patchPayloads : List Effect → List (String × QueryStatus)
  | [] => []
  | Effect.execCall _ :: es => patchPayloads es
  | Effect.patchCall q st :: es => (q, st) :: patchPayloads es
  | Effect.toastShown _ :: es => patchPayloads es

/-- The `disabled` attribute of the Run button: `disabled=\x7bloadingQueryResults\x7d`. -/
def runButtonDisabled (s : Workspace) : Bool :=
  s.loadingQueryResults

/-- The `disabled` attribute of the Save button: `disabled=\x7bsavingQuery\x7d`. -/
def saveButtonDisabled (s : Workspace) : Bool :=
  s.savingQuery

/-- An interleaved execution trace: `run()` is invoked and suspends at the
await; the user edits the SQL text while the call is in flight; the call then
completes with the given outcome.  The suspended continuation still holds the
SQL text captured when the operation started. -/
def runThenEditTrace (s : Workspace) (edit : String) (outcome : ExecOutcome) :
    Workspace × List Effect :=
  let p := runStart s.currentSqlQuery s
  let mid := handleSqlChange edit p.1
  let q := runFinish s.currentSqlQuery outcome mid.1
  (q.1, p.2 ++ mid.2 ++ q.2)

/-- JavaScript truthiness of a `string | null` value: `null` and the empty
string are falsy. -/
def truthyString : Option String → Bool
  | none => false
  | some m => !(m == "")

/-- The strict `sql_query_result === null` comparison. -/
def strictNull : SqlQueryResult → Bool
  | SqlQueryResult.null => true
  | SqlQueryResult.undefined => false
  | SqlQueryResult.table _ _ => false

/-- JavaScript truthiness of the `sql_query_result` value, as used by the
`sql_query_result && ...` guard of the answer block: `null` and `undefined`
are falsy, an object is truthy. -/
def truthyResult : SqlQueryResult → Bool
  | SqlQueryResult.null => false
  | SqlQueryResult.undefined => false
  | SqlQueryResult.table _ _ => true

/-- The `sql_query_result.columns` member access; `none` models the thrown
TypeError when the value has no such member. -/
def columnsOf : SqlQueryResult → Option (List String)
  | SqlQueryResult.table cols _ => some cols
  | SqlQueryResult.null => none
  | SqlQueryResult.undefined => none

/-- The `sql_query_result.rows` member access. -/
def rowsOf : SqlQueryResult → Option (List (List String))
  | SqlQueryResult.table _ rows => some rows
  | SqlQueryResult.null => none
  | SqlQueryResult.undefined => none

/-- What the query-results box renders. -/
inductive ResultsPane
  | noResults
  | tableOf (columns : List String) (rows : List (List String))
deriving DecidableEq, Repr

/-- The query-results box: the "No Results" placeholder exactly when
`sql_query_result === null`; otherwise the results table built from
`.columns` and `.rows` (`none` when those member accesses throw). -/
def renderPane (v : SqlQueryResult) : Option ResultsPane :=
  if strictNull v then some ResultsPane.noResults
  else
    match columnsOf v, rowsOf v with
    | some cols, some rows => some (ResultsPane.tableOf cols rows)
    | _, _ => none

/-- The three mutually exclusive shapes of the results view. -/
inductive ResultsView
  | loadingIndicator
  | errorBanner (message : String)
  | resultsArea (pane : Option ResultsPane) (answer : Option String)
deriving DecidableEq, Repr

/-- The results view of the component: the loading indicator when
`loadingQueryResults` is true; otherwise the SQL-error banner when
`sql_error_message` is truthy; otherwise the results area together with the
answer block, which is rendered exactly when `sql_query_result` is truthy. -/
def renderResults (ld : Bool) (err : Option String) (v : SqlQueryResult)
    (nl : String) : ResultsView :=
  if ld then ResultsView.loadingIndicator
  else if truthyString err then ResultsView.errorBanner (err.getD "")
  else
    ResultsView.resultsArea (renderPane v)
      (if truthyResult v then some nl else none)

/-! ## Claims -/

/-- Claim C1, counterexample.  The claim asserts that invoking `run()` while
`loadingQueryResults` is already true is a no-op that starts no second
execution call, and likewise for `save()` with `savingQuery` — the guard
supposedly inside the handler itself.  The handlers contain no such guard: from
a state whose busy flag is already true, the start half of each handler still
issues its collaborator call. -/
theorem C1_counterexample :
    (runStart "SELECT 1"
      { currentSqlQuery := "SELECT 1", verifiedStatus := "NOT_VERIFIED",
        savingQuery := false, loadingQueryResults := true }).2 =
      [Effect.execCall "SELECT 1"] ∧
    (saveStart "SELECT 1" "NOT_VERIFIED"
      { currentSqlQuery := "SELECT 1", verifiedStatus := "NOT_VERIFIED",
        savingQuery := true, loadingQueryResults := false }).2 =
      [Effect.patchCall "SELECT 1" "NOT_VERIFIED"] :=
  ⟨rfl, rfl⟩

/-- Claim C1, amended.  The handlers perform no internal re-entrancy guard:
invoking `run()` (resp. `save()`) always issues exactly one execution
(resp. persistence) call, whatever the busy flags.  Re-entrancy is prevented
only at the presentation surface: the Run trigger button is disabled exactly
when `loadingQueryResults` is true and the Save trigger button exactly when
`savingQuery` is true, so a second call cannot be started through the UI while
one is in flight, but a programmatic invocation while busy does start a second
call. -/
theorem C1_amended (s : Workspace) :
    (runStart s.currentSqlQuery s).2 = [Effect.execCall s.currentSqlQuery] ∧
    (saveStart s.currentSqlQuery s.verifiedStatus s).2 =
      [Effect.patchCall s.currentSqlQuery s.verifiedStatus] ∧
    runButtonDisabled s = s.loadingQueryResults ∧
    saveButtonDisabled s = s.savingQuery :=
  ⟨rfl, rfl, rfl, rfl⟩

/-- Claim C2.  Whatever the outcome of the collaborator call — resolution or
rejection — the corresponding busy flag is false once the operation completes:
the finally clause resets it unconditionally on both paths, for any captured
environment and any starting state. -/
theorem C2_flag_reset (q : String) (st : QueryStatus) (o : ExecOutcome)
    (o2 : SaveOutcome) (s s2 : Workspace) :
    ((handleRunQueryWith q o s).1).loadingQueryResults = false ∧
    ((handleSaveQueryWith q st o2 s2).1).savingQuery = false := by
  refine ⟨?_, ?_⟩
  · cases o <;> rfl
  · cases o2 <;> rfl

/-- Claim C3.  A failed `run()` emits a failure toast whose action is the run
retry closure holding the SQL text captured at the failed call, and triggering
that action against any later state `t` — however the draft was edited in
between — issues the execution call with exactly the captured text, not
`t.currentSqlQuery`; symmetrically for `save()` with the captured SQL text and
status pair. -/
theorem C3_retry_fidelity (s t : Workspace) (o : ExecOutcome)
    (o2 : SaveOutcome) :
    (handleRunQuery ExecOutcome.rejected s).2 =
      [Effect.execCall s.currentSqlQuery,
       Effect.toastShown (runFailureToast s.currentSqlQuery)] ∧
    execPayloads
        (triggerRetry (RetryAction.runRetry s.currentSqlQuery) o o2 t).2 =
      [s.currentSqlQuery] ∧
    (handleSaveQuery SaveOutcome.rejected s).2 =
      [Effect.patchCall s.currentSqlQuery s.verifiedStatus,
       Effect.toastShown (saveFailureToast s.currentSqlQuery s.verifiedStatus)] ∧
    patchPayloads
        (triggerRetry
          (RetryAction.saveRetry s.currentSqlQuery s.verifiedStatus) o o2 t).2 =
      [(s.currentSqlQuery, s.verifiedStatus)] := by
  refine ⟨rfl, ?_, rfl, ?_⟩
  · cases o <;> rfl
  · cases o2 <;> rfl

/-- Claim C4.  `save()` invokes the persistence collaborator with exactly the
pair of `currentSqlQuery` and `verifiedStatus` read from the draft state at
invocation, and after a successful save the resulting state is the starting
state with only `savingQuery` cleared — in particular `currentSqlQuery` and
`verifiedStatus` still equal the values that were sent. -/
theorem C4_save_payload_no_snap_back (s : Workspace) :
    (handleSaveQuery SaveOutcome.resolved s).2 =
      [Effect.patchCall s.currentSqlQuery s.verifiedStatus,
       Effect.toastShown saveSuccessToast] ∧
    (handleSaveQuery SaveOutcome.resolved s).1 =
      { s with savingQuery := false } ∧
    ((handleSaveQuery SaveOutcome.resolved s).1).currentSqlQuery =
      s.currentSqlQuery ∧
    ((handleSaveQuery SaveOutcome.resolved s).1).verifiedStatus =
      s.verifiedStatus :=
  ⟨rfl, rfl, rfl, rfl⟩

/-- Claim C5.  When the persistence collaborator call rejects, `save()` emits
the attempted patch call followed by a destructive toast carrying a retry
action, and the resulting state is exactly the starting state with
`savingQuery` cleared: `currentSqlQuery` and `verifiedStatus` are untouched and
no partial update of any field occurs. -/
theorem C5_save_failure_atomic (s : Workspace) :
    (handleSaveQuery SaveOutcome.rejected s).2 =
      [Effect.patchCall s.currentSqlQuery s.verifiedStatus,
       Effect.toastShown (saveFailureToast s.currentSqlQuery s.verifiedStatus)] ∧
    (saveFailureToast s.currentSqlQuery s.verifiedStatus).variant =
      ToastVariant.destructive ∧
    (saveFailureToast s.currentSqlQuery s.verifiedStatus).action =
      some (RetryAction.saveRetry s.currentSqlQuery s.verifiedStatus) ∧
    (handleSaveQuery SaveOutcome.rejected s).1 =
      { s with savingQuery := false } :=
  ⟨rfl, rfl, rfl, rfl⟩

/-- Claim C6.  The draft setters only assign their own field: `handleSqlChange`
returns the state with only `currentSqlQuery` replaced and an empty effect
list — no collaborator call and no toast — and `handleVerifyChange` likewise
for `verifiedStatus`; both busy flags and the other draft field are unchanged
by construction of the record update. -/
theorem C6_setters_frame (s : Workspace) (v : String) (st : QueryStatus) :
    handleSqlChange v s = ({ s with currentSqlQuery := v }, []) ∧
    handleVerifyChange st s = ({ s with verifiedStatus := st }, []) ∧
    (handleSqlChange v s).1.savingQuery = s.savingQuery ∧
    (handleSqlChange v s).1.loadingQueryResults = s.loadingQueryResults ∧
    (handleVerifyChange st s).1.savingQuery = s.savingQuery ∧
    (handleVerifyChange st s).1.loadingQueryResults = s.loadingQueryResults :=
  ⟨rfl, rfl, rfl, rfl, rfl, rfl⟩

/-- Claim C7, counterexample.  The claim asserts the error banner is shown
whenever `sql_error_message` is non-null (and the loading flag is false).  The
source tests truthiness, not nullness: with `sql_error_message` the non-null
empty string, the view falls through to the results area instead of the
banner. -/
theorem C7_counterexample :
    renderResults false (some "") SqlQueryResult.null "answer" =
      ResultsView.resultsArea (some ResultsPane.noResults) none ∧
    renderResults false (some "") SqlQueryResult.null "answer" ≠
      ResultsView.errorBanner "" :=
  ⟨rfl, by decide⟩

/-- Claim C7, amended.  The results view is a function into three mutually
exclusive shapes: the loading indicator whenever `loadingQueryResults` is true
(whatever the other inputs); otherwise the error banner showing the message
whenever `sql_error_message` is non-null AND non-empty (truthy) — a non-null
empty string falls through; otherwise the results-or-empty area. -/
theorem C7_amended (v : SqlQueryResult) (nl m : String)
    (err : Option String) :
    renderResults true err v nl = ResultsView.loadingIndicator ∧
    renderResults false (some m) v nl =
      (if m == "" then
        ResultsView.resultsArea (renderPane v)
          (if truthyResult v then some nl else none)
       else ResultsView.errorBanner m) ∧
    renderResults false none v nl =
      ResultsView.resultsArea (renderPane v)
        (if truthyResult v then some nl else none) := by
  refine ⟨rfl, ?_, rfl⟩
  cases h : m == "" <;> simp [renderResults, truthyString, h]

/-- Claim C8.  Whenever the execution collaborator call resolves, `run()` emits
exactly the execution call followed by the success toast — for every resolved
response, including one whose `sql_error_message` is populated — and the
success toast carries no retry action; the destructive toast is reserved for
the rejected path. -/
theorem C8_resolved_is_success (q : String) (r : ExecResponse)
    (s : Workspace) :
    (handleRunQueryWith q (ExecOutcome.resolved r) s).2 =
      [Effect.execCall q, Effect.toastShown runSuccessToast] ∧
    runSuccessToast.variant = ToastVariant.success ∧
    runSuccessToast.action = none :=
  ⟨rfl, rfl, rfl⟩

/-- Claim C9, counterexample.  The claim asserts that for any non-null
`sql_query_result` — including `undefined` — rendering enters the results-table
branch AND the `nl_response` answer block is shown.  For `undefined` the strict
`=== null` check indeed fails, so the table branch is entered, but the
`.columns` access throws (no table renders) and the `sql_query_result && ...`
guard is falsy, so the answer block is NOT shown. -/
theorem C9_counterexample :
    strictNull SqlQueryResult.undefined = false ∧
    renderResults false none SqlQueryResult.undefined "the answer" =
      ResultsView.resultsArea none none :=
  ⟨rfl, rfl⟩

/-- Claim C9, amended.  The "No Results" empty state is rendered exactly when
`sql_query_result` is strictly null; a well-formed table value renders the
results table from its columns and rows; `undefined` enters the table branch
but the `.columns` access fails, so no pane renders; and the answer block is
shown exactly when `sql_query_result` is truthy — for a table value, not for
`null` or `undefined`. -/
theorem C9_amended (cols : List String) (rows : List (List String))
    (nl : String) :
    renderPane SqlQueryResult.null = some ResultsPane.noResults ∧
    renderPane (SqlQueryResult.table cols rows) =
      some (ResultsPane.tableOf cols rows) ∧
    renderPane SqlQueryResult.undefined = none ∧
    renderResults false none (SqlQueryResult.table cols rows) nl =
      ResultsView.resultsArea (some (ResultsPane.tableOf cols rows)) (some nl) ∧
    renderResults false none SqlQueryResult.null nl =
      ResultsView.resultsArea (some ResultsPane.noResults) none ∧
    renderResults false none SqlQueryResult.undefined nl =
      ResultsView.resultsArea none none :=
  ⟨rfl, rfl, rfl, rfl, rfl, rfl⟩

/-- Claim C10.  The SQL text passed to the execution collaborator is the value
of `currentSqlQuery` at the moment `run()` is invoked, and in the interleaved
trace where the draft is edited while the call is in flight, the only
execution payload in the whole trace is still the originally captured text —
independent of the edit — while the edit itself lands in the final state. -/
theorem C10_inflight_immune (s : Workspace) (edit : String)
    (o : ExecOutcome) :
    execPayloads (handleRunQuery o s).2 = [s.currentSqlQuery] ∧
    execPayloads (runThenEditTrace s edit o).2 = [s.currentSqlQuery] ∧
    ((runThenEditTrace s edit o).1).currentSqlQuery = edit := by
  refine ⟨?_, ?_, ?_⟩
  · cases o <;> rfl
  · cases o <;> rfl
  · cases o <;> rfl

end Dataherald
